import Mathlib

/-!
Shallow embedding of the agentic orchestration engine of the
`autonomous-ai-team` repository, together with proofs settling the claims
about its natural-language specification.

Embedding conventions:
* Python floats are modelled as exact rationals (`ℚ`).  `round(x, 2)` is
  modelled by `round2`, which rounds to the nearest multiple of `1/100`,
  rounding half up.  Python rounds the binary-float value of `x`, and a
  float is never an exact half multiple of `1/100`, so the half rule only
  matters for decimal halves; at every input used below the float value
  of the decimal lies strictly above the half point, so Python also
  rounds it up and the models agree.
* Python dicts with a branch-dependent key set are modelled by structures
  with `Option` fields (`none` means the key is absent); looking a
  possibly-missing key up is a `match` whose `none` branch is the
  `KeyError` the Python code would raise.
* Raising code is modelled in `Except String`; `try/except` is a `match`
  on the `Except` value.
* The wall clock (`datetime.utcnow`) is passed in as an explicit `today`
  string; timestamps that are written but never read are omitted.
-/

namespace AITeam

/-- Python `round(q, 2)`: round to the nearest multiple of `1/100`,
half up (see the module comment for the tie discussion). -/
def round2 (q : ℚ) : ℚ := ((⌊q * 100 + 1/2⌋ : ℤ) : ℚ) / 100

/-- Python `round(q, 1)`: round to the nearest multiple of `1/10`, half up. -/
def round1 (q : ℚ) : ℚ := ((⌊q * 10 + 1/2⌋ : ℤ) : ℚ) / 10

/-! ## `src/core/token_manager.py` -/

/-- `TokenUsage` (token_manager.py lines 18-29).  The `timestamp` field is
set to the wall clock and never read by any function below, so it is
omitted. -/
structure TokenUsage where
  input_tokens : Nat
  output_tokens : Nat
  model : String
deriving DecidableEq, Repr

/-- `TokenUsage.total_tokens` (token_manager.py lines 26-29). -/
def TokenUsage.total_tokens (u : TokenUsage) : Nat :=
  u.input_tokens + u.output_tokens

/-- `TokenUsage.calculate_cost` (token_manager.py lines 31-44). -/
def TokenUsage.calculate_cost (u : TokenUsage)
    (input_cost_per_1k output_cost_per_1k : ℚ) : ℚ :=
  (u.input_tokens : ℚ) / 1000 * input_cost_per_1k
    + (u.output_tokens : ℚ) / 1000 * output_cost_per_1k

/-- `TokenManager.DEFAULT_INPUT_COST = 0.003` (token_manager.py line 58). -/
def DEFAULT_INPUT_COST : ℚ := 3/1000

/-- `TokenManager.DEFAULT_OUTPUT_COST = 0.015` (token_manager.py line 59). -/
def DEFAULT_OUTPUT_COST : ℚ := 15/1000

/-- The `self.model_pricing` table built in `TokenManager.__init__`
(token_manager.py lines 75-88), as a function from model name to the
`(input, output)` price pair; `model_pricing_get` below adds the
`.get(model, default)` fallback used at every lookup site. -/
def model_pricing (model : String) : Option (ℚ × ℚ) :=
  if model = "claude-sonnet-4-5" then some (DEFAULT_INPUT_COST, DEFAULT_OUTPUT_COST)
  else if model = "claude-sonnet-3-5" then some (3/1000, 15/1000)
  else if model = "claude-haiku" then some (1/4000, 5/4000)
  else none

/-- `self.model_pricing.get(model, default-price-dict)` (token_manager.py
lines 148-151, 202-205, 244-247, 308-311). -/
def model_pricing_get (model : String) : ℚ × ℚ :=
  (model_pricing model).getD (DEFAULT_INPUT_COST, DEFAULT_OUTPUT_COST)

/-- The cost of one usage entry under the pricing table with fallback,
as computed by `record_usage` line 153 and summed by `get_daily_usage`
lines 200-206. -/
def entry_cost (u : TokenUsage) : ℚ :=
  u.calculate_cost (model_pricing_get u.model).1 (model_pricing_get u.model).2

/-- The mutable state of a `TokenManager` (token_manager.py lines 61-97):
the configured daily budget and the two `defaultdict(list)` usage maps.
The constructor falls back to `settings.max_cost_per_day = 50.0` when no
(truthy) budget is given, so a configured budget is positive. -/
structure TokenManager where
  daily_budget : ℚ
  usage_by_agent : String → List TokenUsage
  usage_by_date : String → List TokenUsage

/-- `TokenManager.estimate_tokens` (token_manager.py lines 99-120), on the
fallback path `len(text) // 4` taken when the external tiktoken tokenizer
is unavailable or fails; the spec requires exactly this fallback to be
exercised.  Python `len` counts code points, so `String.length` matches. -/
def TokenManager.estimate_tokens (_tm : TokenManager) (text : String) : Nat :=
  text.length / 4

/-- The total (unrounded) cost of the usage entries recorded under date
`d`, as summed by `get_daily_usage` (token_manager.py lines 200-206). -/
def TokenManager.daily_cost (tm : TokenManager) (d : String) : ℚ :=
  ((tm.usage_by_date d).map entry_cost).sum

/-- The value a Python function returns is one dynamically-typed object;
`record_usage` is specified to return a cost (a number) but the code
returns the `TokenUsage` entry, so its return value is embedded into the
sum of the two candidate types to make the distinction statable. -/
abbrev RecordReturn := TokenUsage ⊕ ℚ

/-- `TokenManager.record_usage` (token_manager.py lines 122-169): builds
the entry, computes its cost for the log (`record_usage_cost` below),
appends the entry to the per-agent and per-date buckets, and returns the
entry (`return usage`, line 169), embedded as `Sum.inl`. -/
def TokenManager.record_usage (tm : TokenManager) (agent_id : String)
    (input_tokens output_tokens : Nat) (model : String) (today : String) :
    TokenManager × RecordReturn :=
  let usage : TokenUsage := ⟨input_tokens, output_tokens, model⟩
  ({ tm with
      usage_by_agent := fun a =>
        if a = agent_id then tm.usage_by_agent a ++ [usage] else tm.usage_by_agent a
      usage_by_date := fun d =>
        if d = today then tm.usage_by_date d ++ [usage] else tm.usage_by_date d },
   Sum.inl usage)

/-- The cost `record_usage` computes at token_manager.py lines 147-153
(used only in the log record, not returned). -/
def record_usage_cost (input_tokens output_tokens : Nat) (model : String) : ℚ :=
  entry_cost ⟨input_tokens, output_tokens, model⟩

/-- The dict returned by `TokenManager.get_daily_usage` (token_manager.py
lines 171-217).  The no-usage branch (lines 186-194) returns a dict
without the `budget_remaining_usd` / `budget_used_percentage` keys, hence
the `Option` fields. -/
structure DailyUsage where
  date : String
  total_tokens : Nat
  input_tokens : Nat
  output_tokens : Nat
  total_cost_usd : ℚ
  call_count : Nat
  budget_remaining_usd : Option ℚ
  budget_used_percentage : Option ℚ
deriving DecidableEq, Repr

/-- `TokenManager.get_daily_usage` (token_manager.py lines 171-217).  The
`date` argument defaults to `today`.  Division by `daily_budget` at line
216 assumes the configured budget is nonzero (the constructor replaces a
falsy budget by the 50.0 default). -/
def TokenManager.get_daily_usage (tm : TokenManager) (date : Option String)
    (today : String) : DailyUsage :=
  let d := date.getD today
  let usages := tm.usage_by_date d
  if usages = [] then
    { date := d, total_tokens := 0, input_tokens := 0, output_tokens := 0
      total_cost_usd := 0, call_count := 0
      budget_remaining_usd := none, budget_used_percentage := none }
  else
    let total_input := (usages.map (·.input_tokens)).sum
    let total_output := (usages.map (·.output_tokens)).sum
    let total_cost := (usages.map entry_cost).sum
    { date := d, total_tokens := total_input + total_output
      input_tokens := total_input, output_tokens := total_output
      total_cost_usd := round2 total_cost, call_count := usages.length
      budget_remaining_usd := some (round2 (tm.daily_budget - total_cost))
      budget_used_percentage := some (round1 (total_cost / tm.daily_budget * 100)) }

/-- `TokenManager.check_budget_available` (token_manager.py lines
260-287).  `usage["budget_remaining_usd"]` at line 268 raises `KeyError`
(modelled `none`) when nothing was recorded today, because the no-usage
branch of `get_daily_usage` omits that key.  The 80 percent warning at
lines 280-285 only logs and does not change the returned value. -/
def TokenManager.check_budget_available (tm : TokenManager) (today : String) :
    Option Bool :=
  let usage := tm.get_daily_usage none today
  match usage.budget_remaining_usd with
  | none => none
  | some remaining => if remaining < 0 then some false else some true

/-- `TokenManager.estimate_call_cost` (token_manager.py lines 289-316). -/
def TokenManager.estimate_call_cost (tm : TokenManager) (input_text : String)
    (expected_output_tokens : Nat) (model : String) : ℚ :=
  let input_tokens := tm.estimate_tokens input_text
  let pricing := model_pricing_get model
  (input_tokens : ℚ) / 1000 * pricing.1
    + (expected_output_tokens : ℚ) / 1000 * pricing.2

/-- `TokenManager.should_allow_call` (token_manager.py lines 318-353).
The Python default of `expected_output_tokens` is 1000.  The interpolated
remaining-budget figure in the denial reason at line 351 is elided from
the reason string.  `none` models the `KeyError` propagating out of
`check_budget_available` / the second `get_daily_usage` lookup. -/
def TokenManager.should_allow_call (tm : TokenManager) (input_text : String)
    (expected_output_tokens : Nat) (model : String) (today : String) :
    Option (Bool × String) :=
  match tm.check_budget_available today with
  | none => none
  | some false => some (false, "Daily budget exceeded")
  | some true =>
    let estimated_cost := tm.estimate_call_cost input_text expected_output_tokens model
    let usage := tm.get_daily_usage none today
    match usage.budget_remaining_usd with
    | none => none
    | some remaining =>
      if remaining < estimated_cost then
        some (false, "Call would exceed remaining budget")
      else
        some (true, "Budget available")

/-! ## `src/core/prompt_cache.py`, class `CacheStrategy` (lines 244-320) -/

namespace CacheStrategy

/-- `CacheStrategy.should_cache_system_prompt` (prompt_cache.py lines
254-269): `prompt_length >= MIN_TOKENS_TO_CACHE` with
`MIN_TOKENS_TO_CACHE = 1024`. -/
def should_cache_system_prompt (prompt_length : Nat) : Bool :=
  let MIN_TOKENS_TO_CACHE := 1024
  decide (prompt_length ≥ MIN_TOKENS_TO_CACHE)

/-- `CacheStrategy.should_cache_tools` (prompt_cache.py lines 271-283):
`num_tools > 3`. -/
def should_cache_tools (num_tools : Nat) : Bool :=
  decide (num_tools > 3)

/-- `CacheStrategy.should_cache_conversation_history` (prompt_cache.py
lines 285-297): `num_turns > 2`. -/
def should_cache_conversation_history (num_turns : Nat) : Bool :=
  decide (num_turns > 2)

end CacheStrategy

/-! ## `src/core/agent_base.py`

`AgentBase.run` is embedded as a function parameterised by the effectful
collaborators the Python method calls through `self`:

* `callModel` — `self.client.messages.create(...)` (line 97), the one
  model call per iteration.  The agent-level arguments (model name,
  system prompt, tool schemas, temperature, max tokens) are fixed per
  agent, so the oracle is a function of the conversation messages; it may
  raise (transport errors, malformed responses), hence `Except`.
* `handle` — `self._handle_tool_use(response)` (line 141), dynamically
  dispatched (the Manager overrides it), hence a parameter; it may raise.

`elapsed_seconds` is wall-clock real time and is not modelled; no claim
depends on it.  The `conversation_history` diagnostic log (lines 107-112)
is written and never read by `run`, and is omitted. -/

/-- The argument dict of a tool invocation, with the keys the engine ever
reads: the Manager dispatch reads `task` and `context`
(manager.py lines 228-229) and the approval stub reads `decision`,
`rationale` and `risk_level` (manager.py lines 290-292); `none` models a
missing key (`dict.get` returns `None`). -/
structure ToolInput where
  task : Option String := none
  context : Option (List (String × String)) := none
  decision : Option String := none
  rationale : Option String := none
  risk_level : Option String := none
deriving DecidableEq, Repr

/-- One content block of a model response (text or tool invocation). -/
inductive ContentBlock where
  | text (text : String)
  | tool_use (id : String) (name : String) (input : ToolInput)
deriving DecidableEq, Repr

/-- Reported token usage of one model response. -/
structure Usage where
  input_tokens : Nat
  output_tokens : Nat
deriving DecidableEq, Repr

/-- One model response: content blocks, stop reason and usage. -/
structure Response where
  content : List ContentBlock
  stop_reason : String
  usage : Usage
deriving DecidableEq, Repr

/-- One `tool_result` block sent back to the model (agent_base.py lines
209-213, manager.py lines 238-242): the correlating `tool_use_id` and the
serialized result. -/
structure ToolResultMsg where
  tool_use_id : String
  content : String
deriving DecidableEq, Repr

/-- The content of one conversation message: the initial user string, an
assistant turn of content blocks, or a batched user turn of tool
results. -/
inductive MessageContent where
  | str (s : String)
  | blocks (bs : List ContentBlock)
  | tool_results (rs : List ToolResultMsg)
deriving DecidableEq, Repr

/-- One conversation message. -/
structure Message where
  role : String
  content : MessageContent
deriving DecidableEq, Repr

/-- The dict returned by `AgentBase.run`.  The three return sites build
dicts with different key sets (success: lines 127-137; max iterations:
lines 164-169; exception: lines 173-177), so the optional keys are
`Option` fields; in particular the exception path carries no
`iterations` key. -/
structure RunResult where
  success : Bool
  agent_id : String
  result : Option String
  error : Option String
  iterations : Option Nat
  usage : Option Usage
deriving DecidableEq, Repr

/-- `AgentBase._build_user_message` (agent_base.py lines 179-188).
`if context:` is falsy for both `None` and an empty dict. -/
def build_user_message (task : String)
    (context : Option (List (String × String))) : String :=
  match context with
  | none => task
  | some [] => task
  | some ctx =>
    task ++ "\n\n**Additional Context:**\n"
      ++ String.join (ctx.map fun kv => "- **" ++ kv.1 ++ "**: " ++ kv.2 ++ "\n")

/-- `AgentBase._extract_result` (agent_base.py lines 224-232): the text
fields of the text blocks, joined by `"\n".join`. -/
def extract_result (response : Response) : String :=
  String.intercalate "\n"
    (response.content.filterMap fun b =>
      match b with
      | .text t => some t
      | _ => none)

/-- The max-iterations / unexpected-stop failure dict of `AgentBase.run`
(agent_base.py lines 164-169). -/
def max_iter_result (agent_id : String) (iteration : Nat) : RunResult :=
  { success := false, agent_id := agent_id, result := none
    error := some "Max iterations reached"
    iterations := some iteration, usage := none }

/-- The type of a model-call oracle. -/
abbrev ModelCall := List Message → Except String Response

/-- The type of a tool-dispatch step (`_handle_tool_use`). -/
abbrev ToolHandler := Response → Except String (List ToolResultMsg)

/-- The `while iteration < max_iterations` loop of `AgentBase.run`
(agent_base.py lines 91-160), in fuel-passing form: `fuel` is
`max_iterations - iteration` and `iteration` the Python loop counter,
so the loop exits with `iteration = max_iterations` when the fuel runs
out.  The `break` on an unexpected stop reason (lines 153-160) falls
through to the same max-iterations return (lines 162-169) with the
current iteration count. -/
def run_loop (callModel : ModelCall) (handle : ToolHandler) (agent_id : String) :
    Nat → Nat → List Message → Except String RunResult
  | 0, iteration, _ => .ok (max_iter_result agent_id iteration)
  | fuel + 1, iteration, messages =>
    match callModel messages with
    | .error e => .error e
    | .ok response =>
      if response.stop_reason = "end_turn" then
        .ok { success := true, agent_id := agent_id
              result := some (extract_result response), error := none
              iterations := some (iteration + 1), usage := some response.usage }
      else if response.stop_reason = "tool_use" then
        match handle response with
        | .error e => .error e
        | .ok tool_results =>
          run_loop callModel handle agent_id fuel (iteration + 1)
            (messages ++ [⟨"assistant", .blocks response.content⟩,
                          ⟨"user", .tool_results tool_results⟩])
      else
        .ok (max_iter_result agent_id (iteration + 1))

/-- The body of the `try:` block of `AgentBase.run` (agent_base.py lines
87-169): build the initial user message and run the loop.  An `.error`
value is an exception reaching the top-level handler. -/
def run_except (callModel : ModelCall) (handle : ToolHandler) (agent_id : String)
    (task : String) (context : Option (List (String × String)))
    (max_iterations : Nat) : Except String RunResult :=
  run_loop callModel handle agent_id max_iterations 0
    [⟨"user", .str (build_user_message task context)⟩]

/-- `AgentBase.run` (agent_base.py lines 61-177): the `try/except` at
lines 87 and 171-177 converts any exception into the failure dict of
lines 173-177 (note: no `iterations` key). -/
def run (callModel : ModelCall) (handle : ToolHandler) (agent_id : String)
    (task : String) (context : Option (List (String × String)))
    (max_iterations : Nat) : RunResult :=
  match run_except callModel handle agent_id task context max_iterations with
  | .ok r => r
  | .error e =>
    { success := false, agent_id := agent_id, result := none
      error := some e, iterations := none, usage := none }

/-- The `for content_block in response.content` loop of
`AgentBase._handle_tool_use` (agent_base.py lines 194-222): execute each
`tool_use` block in order through the tool registry and collect one
`tool_result` per call. -/
def handle_blocks_base (execute_tool : String → ToolInput → Except String String) :
    List ContentBlock → Except String (List ToolResultMsg)
  | [] => .ok []
  | .text _ :: rest => handle_blocks_base execute_tool rest
  | .tool_use id name input :: rest =>
    match execute_tool name input with
    | .error e => .error e
    | .ok result =>
      match handle_blocks_base execute_tool rest with
      | .error e => .error e
      | .ok rs => .ok (⟨id, result⟩ :: rs)

/-- `AgentBase._handle_tool_use` (agent_base.py lines 190-222).  The tool
registry (`tool_registry.execute_tool`, line 207) is an external
collaborator, passed in as a function returning the `str(result)`
serialization the code puts into `content` (line 212); it may raise. -/
def handle_tool_use_base (execute_tool : String → ToolInput → Except String String) :
    ToolHandler := fun response =>
  handle_blocks_base execute_tool response.content

/-! ## `src/agents/manager.py`, class `ManagerAgent` -/

/-- Python `s.startswith(p)`, on the character lists of the strings.
(The core `String.startsWith` is defined by well-founded recursion and
does not reduce in the kernel, so the Python string operations are
embedded structurally here.) -/
def chars_startswith : List Char → List Char → Bool
  | _, [] => true
  | [], _ :: _ => false
  | c :: cs, p :: ps => c = p && chars_startswith cs ps

/-- Python `s.startswith(p)`. -/
def py_startswith (s p : String) : Bool :=
  chars_startswith s.data p.data

/-- Python `s.endswith(p)`: the reversed prefix test. -/
def py_endswith (s p : String) : Bool :=
  chars_startswith s.data.reverse p.data.reverse

/-- One scan step of Python `s.replace(pat, rep)` for a nonempty `pat`:
the `skip` counter consumes the tail of a matched occurrence one
character per step, so the recursion is structural on the string;
matches are non-overlapping and found left to right, as in Python. -/
def chars_replace (pat rep : List Char) : List Char → Nat → List Char
  | [], _ => []
  | _ :: cs, skip + 1 => chars_replace pat rep cs skip
  | c :: cs, 0 =>
    if chars_startswith (c :: cs) pat then
      rep ++ chars_replace pat rep cs (pat.length - 1)
    else
      c :: chars_replace pat rep cs 0

/-- Python `s.replace(pat, rep)`, for the nonempty patterns used by the
Manager dispatch (every occurrence is replaced). -/
def py_replace (s pat rep : String) : String :=
  if pat.data = [] then s
  else ⟨chars_replace pat.data rep.data s.data 0⟩

/-- A specialist agent, as the Manager dispatch sees it: its `run`
method, called at manager.py line 263.  The call may raise in principle
(that possibility is exactly what the `try/except` at lines 262-280
exists for), hence `Except`. -/
abbrev SpecRun := String → Option (List (String × String)) → Except String RunResult

/-- The specialist ids registered in `ManagerAgent.__init__`
(manager.py lines 37-43). -/
def specialist_ids : List String :=
  ["analyst", "growth_hacker", "sales_machine", "system_builder", "brand_builder"]

/-- The `self.specialist_agents` dict (manager.py lines 37-43): the five
registered ids, each bound to that agent's `run`; `.get` on any other id
yields `None`. -/
def mk_specialists (runs : String → SpecRun) : String → Option SpecRun :=
  fun agent_id => if agent_id ∈ specialist_ids then some (runs agent_id) else none

/-- The dict returned by `ManagerAgent._request_human_approval`
(manager.py lines 282-317).  `action_required` is only present on the
not-approved branch. -/
structure ApprovalRet where
  approved : Bool
  message : String
  decision : Option String
  action_required : Option String
deriving DecidableEq, Repr

/-- The dynamically-typed value the Manager dispatch obtains for one tool
invocation (the `result` of manager.py lines 226-236), before it is
serialized with `json.dumps`.  The constructors record the key set of
the underlying dict:

* `runRes r` — the specialist's own `RunResult` dict (line 269);
* `failNoAgent error` — the unknown-specialist dict of lines 257-260,
  with keys `success=False` and `error` only (no `agent_id` key);
* `failWithAgent agent_id error` — the caught-exception dict of lines
  276-280, with keys `success=False`, `agent_id` and `error`;
* `approval a` — the approval dict (lines 306-317);
* `generic v` — an opaque result of the external generic tool registry
  (line 236). -/
inductive DispatchRet where
  | runRes (r : RunResult)
  | failNoAgent (error : String)
  | failWithAgent (agent_id : String) (error : String)
  | approval (a : ApprovalRet)
  | generic (v : String)
deriving DecidableEq, Repr

/-- `ManagerAgent._call_specialist_agent` (manager.py lines 246-280).
Order of events, as in the source: line 253 slices `task[:100]` for the
log, which raises `TypeError` when `task` is `None` — this happens
before the `try:` at line 262, so it propagates; then the specialist is
looked up (lines 255-260), and only the `agent.run` call of line 263 is
guarded by the `try/except` that produces the `failWithAgent` dict. -/
def call_specialist_agent (specialists : String → Option SpecRun)
    (agent_id : String) (task : Option String)
    (context : Option (List (String × String))) : Except String DispatchRet :=
  match task with
  | none => .error "TypeError: NoneType object is not subscriptable"
  | some t =>
    match specialists agent_id with
    | none => .ok (.failNoAgent ("Unknown specialist agent: " ++ agent_id))
    | some spec =>
      match spec t context with
      | .ok result => .ok (.runRes result)
      | .error e => .ok (.failWithAgent agent_id e)

/-- `ManagerAgent._request_human_approval` (manager.py lines 282-317):
auto-approve iff `settings.is_development`. -/
def request_human_approval (is_development : Bool) (input : ToolInput) :
    ApprovalRet :=
  if is_development then
    { approved := true, message := "Auto-approved in development mode"
      decision := input.decision, action_required := none }
  else
    { approved := false
      message := "Human approval required (not implemented yet)"
      decision := input.decision
      action_required := some "Implement human approval workflow" }

/-- `tool_name.replace("call_", "").replace("_agent", "")`
(manager.py line 225).  Like Python `str.replace`, `String.replace`
replaces every occurrence. -/
def extract_agent_id (tool_name : String) : String :=
  py_replace (py_replace tool_name "call_" "") "_agent" ""

/-- The per-block branch of `ManagerAgent._handle_tool_use`
(manager.py lines 224-236): names matching `call_*_agent` go to the
specialist dispatch, `request_human_approval` to the approval stub, and
everything else to the generic tool registry (an external collaborator,
parameterised as `execute_tool`). -/
def manager_dispatch (specialists : String → Option SpecRun)
    (execute_tool : String → ToolInput → Except String String)
    (is_development : Bool) (tool_name : String) (input : ToolInput) :
    Except String DispatchRet :=
  if py_startswith tool_name "call_" && py_endswith tool_name "_agent" then
    call_specialist_agent specialists (extract_agent_id tool_name)
      input.task input.context
  else if tool_name = "request_human_approval" then
    .ok (.approval (request_human_approval is_development input))
  else
    match execute_tool tool_name input with
    | .error e => .error e
    | .ok v => .ok (.generic v)

/-- A rendering of the dispatch result standing in for
`json.dumps(result, indent=2)` (manager.py line 241): it preserves which
dict (by key set, in insertion order) was serialized; whitespace and
string escaping of the real `json.dumps` are elided.  No theorem below
inspects the characters of this string. -/
def serialize_dispatch : DispatchRet → String
  | .runRes r =>
    "\x7b" ++ "success: " ++ toString r.success
      ++ ", agent_id: " ++ r.agent_id
      ++ (match r.result with | none => "" | some s => ", result: " ++ s)
      ++ (match r.error with | none => "" | some s => ", error: " ++ s)
      ++ (match r.iterations with | none => "" | some n => ", iterations: " ++ toString n)
      ++ "\x7d"
  | .failNoAgent e => "\x7b" ++ "success: false, error: " ++ e ++ "\x7d"
  | .failWithAgent a e =>
    "\x7b" ++ "success: false, agent_id: " ++ a ++ ", error: " ++ e ++ "\x7d"
  | .approval a =>
    "\x7b" ++ "approved: " ++ toString a.approved ++ ", message: " ++ a.message ++ "\x7d"
  | .generic v => v

/-- The `for content_block in response.content` loop of
`ManagerAgent._handle_tool_use` (manager.py lines 212-242). -/
def manager_handle_blocks (specialists : String → Option SpecRun)
    (execute_tool : String → ToolInput → Except String String)
    (is_development : Bool) :
    List ContentBlock → Except String (List ToolResultMsg)
  | [] => .ok []
  | .text _ :: rest =>
    manager_handle_blocks specialists execute_tool is_development rest
  | .tool_use id name input :: rest =>
    match manager_dispatch specialists execute_tool is_development name input with
    | .error e => .error e
    | .ok result =>
      match manager_handle_blocks specialists execute_tool is_development rest with
      | .error e => .error e
      | .ok rs => .ok (⟨id, serialize_dispatch result⟩ :: rs)

/-- `ManagerAgent._handle_tool_use` (manager.py lines 206-244), the
overridden dispatch step plugged into `run`. -/
def manager_handle_tool_use (specialists : String → Option SpecRun)
    (execute_tool : String → ToolInput → Except String String)
    (is_development : Bool) : ToolHandler := fun response =>
  manager_handle_blocks specialists execute_tool is_development response.content

/-! ## Concrete instances used by witnesses and counterexamples -/

/-- A ledger whose spend for 2025-06-01 is exactly the configured daily
budget: one `claude-sonnet-4-5` entry of 1,000,000 input tokens costs
`1000 * 0.003 = 3.0` (exact in binary floats as well), with the budget
set to 3. -/
def tm_spend_eq_budget : TokenManager :=
  { daily_budget := 3
    usage_by_agent := fun _ => []
    usage_by_date := fun d =>
      if d = "2025-06-01" then [⟨1000000, 0, "claude-sonnet-4-5"⟩] else [] }

/-- A ledger for the `should_allow_call` counterexample: the budget is
0.01 and one `claude-haiku` entry of 20,000 input tokens costs
`20 * 0.00025 = 0.005`.  The reported `total_cost_usd` is
`round(0.005, 2) = 0.01` (the binary float of 0.005 lies above the half
point, so Python rounds it up exactly as `round2` does), which reaches
the budget, while the remaining budget also rounds up to 0.01. -/
def tm_rounding : TokenManager :=
  { daily_budget := 1/100
    usage_by_agent := fun _ => []
    usage_by_date := fun d =>
      if d = "2025-06-01" then [⟨20000, 0, "claude-haiku"⟩] else [] }

/-- A ledger whose exact spend for 2025-06-01 equals the budget 0.01:
one `claude-haiku` entry of 40,000 input tokens costs `40 * 0.00025`. -/
def tm_spent_out : TokenManager :=
  { daily_budget := 1/100
    usage_by_agent := fun _ => []
    usage_by_date := fun d =>
      if d = "2025-06-01" then [⟨40000, 0, "claude-haiku"⟩] else [] }

/-- An empty ledger with the default 50.0 budget. -/
def tm_empty : TokenManager :=
  { daily_budget := 50, usage_by_agent := fun _ => [], usage_by_date := fun _ => [] }

/-- A model oracle that always answers `end_turn` with two text blocks. -/
def cm_two_texts : ModelCall := fun _ =>
  .ok ⟨[.text "a", .text "b"], "end_turn", ⟨3, 4⟩⟩

/-- A model oracle that always answers `end_turn` with the text of the
end-to-end scenario of the spec. -/
def cm_market : ModelCall := fun _ =>
  .ok ⟨[.text "## Market Opportunities Analysis ..."], "end_turn", ⟨10, 20⟩⟩

/-- A model oracle that always asks for a tool. -/
def cm_tool_use : ModelCall := fun _ =>
  .ok ⟨[.tool_use "i1" "web_search" {}], "tool_use", ⟨1, 1⟩⟩

/-- A model oracle whose call raises. -/
def cm_raise : ModelCall := fun _ => .error "boom"

/-- A tool handler that returns no results (no `tool_use` blocks seen). -/
def handler_empty : ToolHandler := fun _ => .ok []

/-- A specialist-run table where every run raises "boom". -/
def runs_fail : String → SpecRun := fun _ => fun _ _ => .error "boom"

/-- A generic tool registry answering "g" to every call. -/
def et_g : String → ToolInput → Except String String := fun _ _ => .ok "g"

/-- A different generic tool registry, answering "h". -/
def et_h : String → ToolInput → Except String String := fun _ _ => .ok "h"

/-- A Manager model response delegating to the Analyst. -/
def resp_call_analyst : Response :=
  ⟨[.tool_use "i1" "call_analyst_agent" { task := some "analyze" }], "tool_use", ⟨1, 1⟩⟩

/-- A final `end_turn` model response with one text block. -/
def resp_done : Response := ⟨[.text "done"], "end_turn", ⟨2, 3⟩⟩

/-- The initial user message of the concrete Manager run below. -/
def mgr_init_msg : Message := ⟨"user", .str (build_user_message "coordinate" none)⟩

/-- A Manager model oracle: first call delegates to the Analyst, every
later call finishes with `end_turn`. -/
def cm_mgr : ModelCall := fun msgs =>
  if msgs = [mgr_init_msg] then .ok resp_call_analyst else .ok resp_done

/-! ## Claim theorems -/

/-- C8: for every `n`, `k` and `t`, `should_cache_system_prompt n` is
true iff `n ≥ 1024`, `should_cache_tools k` is true iff `k > 3`, and
`should_cache_conversation_history t` is true iff `t > 2`; the boundary
pairs 1023/1024, 3/4 and 2/3 flip the decision. -/
theorem c8_cache_strategy_thresholds (n k t : Nat) :
    (CacheStrategy.should_cache_system_prompt n = true ↔ 1024 ≤ n)
    ∧ (CacheStrategy.should_cache_tools k = true ↔ 3 < k)
    ∧ (CacheStrategy.should_cache_conversation_history t = true ↔ 2 < t)
    ∧ CacheStrategy.should_cache_system_prompt 1023 = false
    ∧ CacheStrategy.should_cache_system_prompt 1024 = true
    ∧ CacheStrategy.should_cache_tools 3 = false
    ∧ CacheStrategy.should_cache_tools 4 = true
    ∧ CacheStrategy.should_cache_conversation_history 2 = false
    ∧ CacheStrategy.should_cache_conversation_history 3 = true := by
  refine ⟨?_, ?_, ?_, by decide, by decide, by decide, by decide, by decide, by decide⟩ <;>
    simp [CacheStrategy.should_cache_system_prompt, CacheStrategy.should_cache_tools,
      CacheStrategy.should_cache_conversation_history]

/-- C1, counterexample: with the spend for the day exactly equal to the
budget ceiling (3 = 3), `check_budget_available` returns `True`, whereas
the claim demands `False` when the spend equals the ceiling. -/
theorem c1_check_budget_counterexample :
    tm_spend_eq_budget.check_budget_available "2025-06-01" = some true
    ∧ (tm_spend_eq_budget.get_daily_usage none "2025-06-01").total_cost_usd
        = tm_spend_eq_budget.daily_budget := by
  constructor
  · simp [TokenManager.check_budget_available, TokenManager.get_daily_usage,
      tm_spend_eq_budget, entry_cost, TokenUsage.calculate_cost, model_pricing_get,
      model_pricing, DEFAULT_INPUT_COST, DEFAULT_OUTPUT_COST, round2, round1]
    norm_num
  · simp [TokenManager.get_daily_usage, tm_spend_eq_budget, entry_cost,
      TokenUsage.calculate_cost, model_pricing_get, model_pricing,
      DEFAULT_INPUT_COST, DEFAULT_OUTPUT_COST, round2]
    norm_num

/-- C1, amended: when usage has been recorded today,
`check_budget_available` returns (without raising) `True` iff the
rounded remaining budget `round(daily_budget - spend, 2)` is
nonnegative — in particular `True` when the spend equals the ceiling —
and when no usage has been recorded today, `get_daily_usage` omits the
`budget_remaining_usd` key and `check_budget_available` raises
`KeyError` instead of returning. -/
theorem c1_check_budget_amended (tm : TokenManager) (today : String) :
    (tm.usage_by_date today = [] → tm.check_budget_available today = none)
    ∧ (tm.usage_by_date today ≠ [] →
        tm.check_budget_available today
          = some (decide (0 ≤ round2 (tm.daily_budget - tm.daily_cost today)))) := by
  constructor
  · intro h
    simp [TokenManager.check_budget_available, TokenManager.get_daily_usage, h]
  · intro h
    simp only [TokenManager.check_budget_available, TokenManager.get_daily_usage,
      Option.getD, TokenManager.daily_cost]
    rw [if_neg h]
    rcases lt_or_le (round2 (tm.daily_budget - ((tm.usage_by_date today).map entry_cost).sum)) 0
      with hr | hr
    · simp [hr, not_le.mpr hr]
    · simp [not_lt.mpr hr, hr]

/-- C1, witness for the amended theorem: on `tm_spend_eq_budget` the
check raises (`none`) for a day with no usage and returns `True` for the
day whose spend equals the ceiling. -/
theorem c1_check_budget_amended_witness :
    tm_spend_eq_budget.check_budget_available "2025-01-01" = none
    ∧ tm_spend_eq_budget.check_budget_available "2025-06-01" = some true := by
  constructor
  · exact (c1_check_budget_amended tm_spend_eq_budget "2025-01-01").1 (by decide)
  · rw [(c1_check_budget_amended tm_spend_eq_budget "2025-06-01").2 (by decide)]
    have : (0:ℚ) ≤ round2 (tm_spend_eq_budget.daily_budget
        - tm_spend_eq_budget.daily_cost "2025-06-01") := by
      simp only [tm_spend_eq_budget, TokenManager.daily_cost]
      norm_num [entry_cost, TokenUsage.calculate_cost, model_pricing_get,
        model_pricing, DEFAULT_INPUT_COST, DEFAULT_OUTPUT_COST, round2]
    simp [this]

/-- C6, counterexample: `record_usage` does not return the computed cost
of the entry (here `1000/1000 * 0.00025 + 2000/1000 * 0.00125`): it
returns the `TokenUsage` entry itself (manager line `return usage`),
embedded as `Sum.inl`, never a cost number `Sum.inr`. -/
theorem c6_record_usage_counterexample :
    (tm_empty.record_usage "analyst" 1000 2000 "claude-haiku" "2025-06-01").2
      ≠ Sum.inr (record_usage_cost 1000 2000 "claude-haiku") := by
  simp [TokenManager.record_usage]

/-- C6, amended: `record_usage` appends exactly one entry to the
per-agent bucket of `agent_id` and to the per-date bucket of the current
day, leaves every other bucket unchanged, and returns the `TokenUsage`
entry itself (not its cost); the cost it computes for the log uses the
per-model pricing table, falling back to the default prices when the
model is unrecognized. -/
theorem c6_record_usage_amended (tm : TokenManager) (agent_id : String)
    (input_tokens output_tokens : Nat) (model today : String) :
    (∀ a, (tm.record_usage agent_id input_tokens output_tokens model today).1.usage_by_agent a
        = if a = agent_id then tm.usage_by_agent a ++ [⟨input_tokens, output_tokens, model⟩]
          else tm.usage_by_agent a)
    ∧ (∀ d, (tm.record_usage agent_id input_tokens output_tokens model today).1.usage_by_date d
        = if d = today then tm.usage_by_date d ++ [⟨input_tokens, output_tokens, model⟩]
          else tm.usage_by_date d)
    ∧ (tm.record_usage agent_id input_tokens output_tokens model today).2
        = Sum.inl ⟨input_tokens, output_tokens, model⟩
    ∧ (model_pricing model = none →
        record_usage_cost input_tokens output_tokens model
          = (input_tokens : ℚ) / 1000 * DEFAULT_INPUT_COST
            + (output_tokens : ℚ) / 1000 * DEFAULT_OUTPUT_COST) := by
  refine ⟨fun a => rfl, fun d => rfl, rfl, fun h => ?_⟩
  simp [record_usage_cost, entry_cost, model_pricing_get, h, TokenUsage.calculate_cost]

/-- C6, witness for the amended theorem, at an unrecognized model name
(so the default-pricing fallback is exercised). -/
theorem c6_record_usage_amended_witness :
    (tm_empty.record_usage "analyst" 5 7 "gpt-9" "2025-06-01").1.usage_by_agent "analyst"
        = [⟨5, 7, "gpt-9"⟩]
    ∧ (tm_empty.record_usage "analyst" 5 7 "gpt-9" "2025-06-01").1.usage_by_date "2025-06-01"
        = [⟨5, 7, "gpt-9"⟩]
    ∧ (tm_empty.record_usage "analyst" 5 7 "gpt-9" "2025-06-01").2 = Sum.inl ⟨5, 7, "gpt-9"⟩
    ∧ record_usage_cost 5 7 "gpt-9"
        = (5 : ℚ) / 1000 * DEFAULT_INPUT_COST + (7 : ℚ) / 1000 * DEFAULT_OUTPUT_COST := by
  obtain ⟨h1, h2, h3, h4⟩ :=
    c6_record_usage_amended tm_empty "analyst" 5 7 "gpt-9" "2025-06-01"
  refine ⟨?_, ?_, h3, h4 (by decide)⟩
  · have := h1 "analyst"
    simpa [tm_empty] using this
  · have := h2 "2025-06-01"
    simpa [tm_empty] using this

/-- `round2` of a nonpositive rational is nonpositive. -/
theorem round2_nonpos {q : ℚ} (h : q ≤ 0) : round2 q ≤ 0 := by
  unfold round2
  have hf : (⌊q * 100 + 1/2⌋ : ℤ) ≤ 0 := by
    have : q * 100 + 1/2 ≤ 1/2 := by nlinarith
    have h1 : (⌊q * 100 + 1/2⌋ : ℤ) ≤ ⌊(1:ℚ)/2⌋ := Int.floor_le_floor this
    have h2 : (⌊(1:ℚ)/2⌋ : ℤ) = 0 := by norm_num
    omega
  have : ((⌊q * 100 + 1/2⌋ : ℤ) : ℚ) ≤ 0 := by exact_mod_cast hf
  linarith

/-- Every price pair looked up through `model_pricing_get` has a
nonnegative input price and a positive output price. -/
theorem model_pricing_get_pos (model : String) :
    0 ≤ (model_pricing_get model).1 ∧ 0 < (model_pricing_get model).2 := by
  unfold model_pricing_get model_pricing DEFAULT_INPUT_COST DEFAULT_OUTPUT_COST
  split <;> try norm_num
  split <;> try norm_num
  split <;> norm_num

/-- An estimated call cost with 1000 expected output tokens is positive. -/
theorem estimate_call_cost_pos (tm : TokenManager) (input_text model : String) :
    0 < tm.estimate_call_cost input_text 1000 model := by
  unfold TokenManager.estimate_call_cost
  obtain ⟨h1, h2⟩ := model_pricing_get_pos model
  have hin : (0:ℚ) ≤ (tm.estimate_tokens input_text : ℚ) / 1000 * (model_pricing_get model).1 := by
    positivity
  nlinarith

/-- C7, counterexample: on `tm_rounding` the reported
`get_daily_usage().total_cost_usd` (0.01, rounded up from the exact
spend 0.005) reaches the daily budget (0.01), yet `should_allow_call`
returns `True`: the rounded remaining budget is also 0.01, which the
estimated call cost 0.00125 does not exceed.  The claim demands `False`
whenever `total_cost_usd ≥ daily_budget`. -/
theorem c7_should_allow_call_counterexample :
    (tm_rounding.get_daily_usage none "2025-06-01").total_cost_usd
        ≥ tm_rounding.daily_budget
    ∧ tm_rounding.should_allow_call "" 1000 "claude-haiku" "2025-06-01"
        = some (true, "Budget available") := by
  constructor
  · simp [TokenManager.get_daily_usage, tm_rounding, entry_cost,
      TokenUsage.calculate_cost, model_pricing_get, model_pricing, round2]
    norm_num
  · simp [TokenManager.should_allow_call, TokenManager.check_budget_available,
      TokenManager.get_daily_usage, tm_rounding, TokenManager.estimate_call_cost,
      TokenManager.estimate_tokens, entry_cost, TokenUsage.calculate_cost,
      model_pricing_get, model_pricing, DEFAULT_INPUT_COST, DEFAULT_OUTPUT_COST,
      round2, round1]
    norm_num

/-- C7, amended: whenever the exact (unrounded) spend recorded for today
reaches a positive daily budget, `should_allow_call` (with the default
1000 expected output tokens) returns `False` with a denial reason, for
any input text and any model.  The counterexample forces the hypothesis
to be on the exact spend rather than on the rounded `total_cost_usd`
report. -/
theorem c7_should_allow_call_amended (tm : TokenManager)
    (today input_text model : String)
    (hb : 0 < tm.daily_budget) (hc : tm.daily_budget ≤ tm.daily_cost today) :
    tm.should_allow_call input_text 1000 model today
        = some (false, "Daily budget exceeded")
    ∨ tm.should_allow_call input_text 1000 model today
        = some (false, "Call would exceed remaining budget") := by
  have hne : tm.usage_by_date today ≠ [] := by
    intro h
    rw [TokenManager.daily_cost, h] at hc
    simp at hc
    exact absurd (lt_of_lt_of_le hb hc) (lt_irrefl 0)
  have hrem : round2 (tm.daily_budget - tm.daily_cost today) ≤ 0 :=
    round2_nonpos (by linarith)
  unfold TokenManager.should_allow_call TokenManager.check_budget_available
  simp only [TokenManager.get_daily_usage, Option.getD]
  rw [if_neg hne]
  simp only
  rcases lt_or_le (round2 (tm.daily_budget - ((tm.usage_by_date today).map entry_cost).sum)) 0
    with hlt | hge
  · left
    rw [if_pos hlt]
  · right
    rw [if_neg (not_lt.mpr hge)]
    simp only
    have heq : round2 (tm.daily_budget - ((tm.usage_by_date today).map entry_cost).sum) = 0 := by
      have : round2 (tm.daily_budget - tm.daily_cost today) ≥ 0 := hge
      have := hrem
      rw [TokenManager.daily_cost] at *
      linarith
    rw [heq, if_pos (estimate_call_cost_pos tm input_text model)]

/-- C7, witness for the amended theorem: `tm_spent_out` has exact spend
0.01 equal to its positive budget 0.01, and the call is denied. -/
theorem c7_should_allow_call_amended_witness :
    tm_spent_out.should_allow_call "hello" 1000 "claude-haiku" "2025-06-01"
        = some (false, "Daily budget exceeded")
    ∨ tm_spent_out.should_allow_call "hello" 1000 "claude-haiku" "2025-06-01"
        = some (false, "Call would exceed remaining budget") := by
  refine c7_should_allow_call_amended tm_spent_out "2025-06-01" "hello" "claude-haiku"
    (by norm_num [tm_spent_out]) ?_
  simp only [tm_spent_out, TokenManager.daily_cost]
  simp [entry_cost, TokenUsage.calculate_cost, model_pricing_get, model_pricing]
  norm_num

/-- C2: for every model oracle, tool dispatch, task, context and
iteration bound, whenever the body of `run` raises (`run_except` is
`.error e`), `run` catches it and returns the failure record of
agent_base.py lines 173-177 carrying the exception message — `run`
itself is a total function, so no exception ever reaches the caller. -/
theorem c2_run_catches_all (callModel : ModelCall) (handle : ToolHandler)
    (agent_id task : String) (context : Option (List (String × String)))
    (max_iterations : Nat) (e : String)
    (h : run_except callModel handle agent_id task context max_iterations = .error e) :
    run callModel handle agent_id task context max_iterations
      = { success := false, agent_id := agent_id, result := none
          error := some e, iterations := none, usage := none } := by
  unfold run
  rw [h]

/-- C2, witness: a model call raising "boom" yields the failure record. -/
theorem c2_run_catches_all_witness :
    run cm_raise handler_empty "analyst" "t" none 5
      = { success := false, agent_id := "analyst", result := none
          error := some "boom", iterations := none, usage := none } :=
  c2_run_catches_all cm_raise handler_empty "analyst" "t" none 5 "boom" rfl

/-- If every model call answers `tool_use` and every dispatch succeeds,
the loop always exits through the max-iterations path, with the final
iteration count `iteration + fuel`. -/
theorem run_loop_all_tool_use (cm : ModelCall) (h : ToolHandler) (aid : String)
    (hcm : ∀ msgs, ∃ resp, cm msgs = .ok resp ∧ resp.stop_reason = "tool_use")
    (hh : ∀ resp, ∃ trs, h resp = .ok trs) :
    ∀ fuel iteration msgs,
      run_loop cm h aid fuel iteration msgs = .ok (max_iter_result aid (iteration + fuel)) := by
  intro fuel
  induction fuel with
  | zero =>
    intro it msgs
    simp [run_loop]
  | succ n ih =>
    intro it msgs
    obtain ⟨resp, hr, hs⟩ := hcm msgs
    obtain ⟨trs, ht⟩ := hh resp
    rw [show it + (n + 1) = (it + 1) + n by omega]
    simp only [run_loop, hr, hs, ht]
    simpa using ih (it + 1) _

/-- C4: for every iteration bound `n ≥ 1`, if every model call returns
stop reason `tool_use` (for all `n` consecutive iterations) and every
dispatch succeeds, `run` returns the failure record with the
max-iterations error message and `iterations = n`. -/
theorem c4_max_iterations (callModel : ModelCall) (handle : ToolHandler)
    (agent_id task : String) (context : Option (List (String × String))) (n : Nat)
    (_hn : 1 ≤ n)
    (hcm : ∀ msgs, ∃ resp, callModel msgs = .ok resp ∧ resp.stop_reason = "tool_use")
    (hh : ∀ resp, ∃ trs, handle resp = .ok trs) :
    run callModel handle agent_id task context n = max_iter_result agent_id n := by
  unfold run run_except
  rw [run_loop_all_tool_use callModel handle agent_id hcm hh n 0 _]
  simp

/-- C4, witness: an oracle that always asks for `web_search` exhausts a
bound of 3 iterations and reports `iterations = 3`. -/
theorem c4_max_iterations_witness :
    run cm_tool_use handler_empty "analyst" "t" none 3 = max_iter_result "analyst" 3 :=
  c4_max_iterations cm_tool_use handler_empty "analyst" "t" none 3 (by decide)
    (fun _ => ⟨⟨[.tool_use "i1" "web_search" {}], "tool_use", ⟨1, 1⟩⟩, rfl, rfl⟩)
    (fun _ => ⟨[], rfl⟩)

/-- C5, counterexample: with a first response that stops with `end_turn`
and carries the text blocks "a" and "b", the run result text is the
newline-join "a\nb" produced by `_extract_result`, not the plain
concatenation "ab" the claim demands. -/
theorem c5_end_turn_counterexample :
    (run cm_two_texts handler_empty "analyst" "t" none 10).result = some "a\nb"
    ∧ (run cm_two_texts handler_empty "analyst" "t" none 10).iterations = some 1
    ∧ ("a\nb" : String) ≠ "a" ++ "b" := by
  refine ⟨rfl, rfl, ?_⟩
  decide

/-- C5, amended: for every run whose first model response stops with
`end_turn`, `run` returns success with `iterations = 1` and `result`
exactly the text blocks of that response joined, in order, with newline
separators (Python `"\n".join`). -/
theorem c5_first_end_turn_amended (callModel : ModelCall) (handle : ToolHandler)
    (agent_id task : String) (context : Option (List (String × String)))
    (n : Nat) (resp : Response)
    (hn : 1 ≤ n)
    (hcm : callModel [⟨"user", .str (build_user_message task context)⟩] = .ok resp)
    (hstop : resp.stop_reason = "end_turn") :
    run callModel handle agent_id task context n
      = { success := true, agent_id := agent_id
          result := some (extract_result resp), error := none
          iterations := some 1, usage := some resp.usage } := by
  obtain ⟨m, rfl⟩ : ∃ m, n = m + 1 := ⟨n - 1, by omega⟩
  unfold run run_except
  simp only [run_loop, hcm, hstop]
  simp

/-- C5, witness for the amended theorem, on the end-to-end scenario of
the spec: a single `end_turn` response with one text block yields
success, `iterations = 1` and that text as the result. -/
theorem c5_first_end_turn_amended_witness :
    run cm_market handler_empty "analyst"
        "Analyze the SaaS productivity tools market" none 10
      = { success := true, agent_id := "analyst"
          result := some "## Market Opportunities Analysis ...", error := none
          iterations := some 1, usage := some ⟨10, 20⟩ } := by
  have h := c5_first_end_turn_amended cm_market handler_empty "analyst"
    "Analyze the SaaS productivity tools market" none 10
    ⟨[.text "## Market Opportunities Analysis ..."], "end_turn", ⟨10, 20⟩⟩
    (by decide) rfl rfl
  rw [h]
  rfl

/-- The number of model calls the loop makes from a given fuel and
conversation: one per iteration, stopping where the loop stops.  This
mirrors the recursion of `run_loop` and is the count the `iterations`
field is compared against. -/
def model_calls (cm : ModelCall) (handle : ToolHandler) : Nat → List Message → Nat
  | 0, _ => 0
  | fuel + 1, msgs =>
    match cm msgs with
    | .error _ => 1
    | .ok response =>
      if response.stop_reason = "end_turn" then 1
      else if response.stop_reason = "tool_use" then
        match handle response with
        | .error _ => 1
        | .ok tool_results =>
          1 + model_calls cm handle fuel
            (msgs ++ [⟨"assistant", .blocks response.content⟩,
                      ⟨"user", .tool_results tool_results⟩])
      else 1

/-- When the loop returns normally, its `iterations` field counts the
model calls made (offset by the iteration counter it started from). -/
theorem run_loop_iterations (cm : ModelCall) (h : ToolHandler) (aid : String) :
    ∀ fuel iteration msgs r,
      run_loop cm h aid fuel iteration msgs = .ok r →
      r.iterations = some (iteration + model_calls cm h fuel msgs) := by
  intro fuel
  induction fuel with
  | zero =>
    intro it msgs r hr
    simp only [run_loop, Except.ok.injEq] at hr
    subst hr
    simp [max_iter_result, model_calls]
  | succ n ih =>
    intro it msgs r hr
    rw [run_loop] at hr
    rw [model_calls]
    cases hcm : cm msgs with
    | error e =>
      simp only [hcm] at hr
      exact absurd hr (by simp)
    | ok resp =>
      simp only [hcm] at hr ⊢
      by_cases hend : resp.stop_reason = "end_turn"
      · rw [if_pos hend] at hr ⊢
        simp only [Except.ok.injEq] at hr
        subst hr
        simp
      · rw [if_neg hend] at hr ⊢
        by_cases htool : resp.stop_reason = "tool_use"
        · rw [if_pos htool] at hr ⊢
          cases hh : h resp with
          | error e =>
            simp only [hh] at hr
            exact absurd hr (by simp)
          | ok trs =>
            simp only [hh] at hr ⊢
            have := ih (it + 1) _ r hr
            rw [this]
            congr 1
            omega
        · rw [if_neg htool] at hr ⊢
          simp only [Except.ok.injEq] at hr
          subst hr
          simp [max_iter_result]

/-- C9, counterexample: when the model call raises, the returned dict is
the exception-path record of agent_base.py lines 173-177, which carries
no `iterations` key at all — so it does not contain an `iterations`
field equal to the number of model calls made, contradicting the claim
for this run. -/
theorem c9_iterations_counterexample :
    (run cm_raise handler_empty "analyst" "t" none 5).iterations = none
    ∧ (run cm_raise handler_empty "analyst" "t" none 5).error = some "boom" := by
  exact ⟨rfl, rfl⟩

/-- C9, amended: every `RunResult` produced by a run that does not go
through the top-level exception handler — success, exhausted
`max_iterations`, or unexpected stop reason — carries
`iterations` equal to the number of model calls made; a run that ends in
the exception handler returns a record with no `iterations` key. -/
theorem c9_iterations_amended (callModel : ModelCall) (handle : ToolHandler)
    (agent_id task : String) (context : Option (List (String × String))) (n : Nat) :
    (∀ r, run_except callModel handle agent_id task context n = .ok r →
        r.iterations = some (model_calls callModel handle n
          [⟨"user", .str (build_user_message task context)⟩]))
    ∧ (∀ e, run_except callModel handle agent_id task context n = .error e →
        (run callModel handle agent_id task context n).iterations = none) := by
  constructor
  · intro r hr
    have := run_loop_iterations callModel handle agent_id n 0 _ r hr
    simpa using this
  · intro e he
    unfold run
    rw [he]

/-- C9, witness for the amended theorem: both branches at concrete runs —
a 3-iteration run exhausting its bound reports `iterations` equal to the
3 model calls made, and a run whose model call raises returns a record
with no `iterations` key. -/
theorem c9_iterations_amended_witness :
    (run cm_tool_use handler_empty "analyst" "t" none 3).iterations
        = some (model_calls cm_tool_use handler_empty 3
            [⟨"user", .str (build_user_message "t" none)⟩])
    ∧ (run cm_raise handler_empty "analyst" "t" none 5).iterations = none :=
  ⟨(c9_iterations_amended cm_tool_use handler_empty "analyst" "t" none 3).1 _ rfl,
   (c9_iterations_amended cm_raise handler_empty "analyst" "t" none 5).2 "boom" rfl⟩

/-- C3: (a) if a named specialist's run raises, the Manager dispatch
catches it and returns the failure dict with `success=False`, the
specialist's `agent_id` and the exception message; (b) in a Manager run
whose first response delegates to the Analyst and whose Analyst run
raises, the dispatch feeds that failure back as tool output and the
Manager's own run continues to a further iteration (finishing
successfully on the second response) instead of failing. -/
theorem c3_specialist_failure_recovered :
    (∀ (specialists : String → Option SpecRun) (sid : String) (spec : SpecRun)
        (t : String) (ctx : Option (List (String × String))) (e : String),
        specialists sid = some spec → spec t ctx = .error e →
        call_specialist_agent specialists sid (some t) ctx
          = .ok (.failWithAgent sid e))
    ∧ (∀ (runs : String → SpecRun)
        (et : String → ToolInput → Except String String) (dev : Bool)
        (cm : ModelCall) (task : String) (ctx : Option (List (String × String)))
        (n : Nat) (cid t e : String) (u : Usage) (resp2 : Response),
        2 ≤ n →
        runs "analyst" t none = .error e →
        (∀ msgs, cm msgs
          = if msgs = [⟨"user", .str (build_user_message task ctx)⟩]
            then .ok ⟨[.tool_use cid "call_analyst_agent" { task := some t }], "tool_use", u⟩
            else .ok resp2) →
        resp2.stop_reason = "end_turn" →
        manager_handle_tool_use (mk_specialists runs) et dev
            ⟨[.tool_use cid "call_analyst_agent" { task := some t }], "tool_use", u⟩
          = .ok [⟨cid, serialize_dispatch (.failWithAgent "analyst" e)⟩]
        ∧ run cm (manager_handle_tool_use (mk_specialists runs) et dev)
              "manager" task ctx n
            = { success := true, agent_id := "manager"
                result := some (extract_result resp2), error := none
                iterations := some 2, usage := some resp2.usage }) := by
  constructor
  · intro specialists sid spec t ctx e hs hrun
    unfold call_specialist_agent
    simp only [hs, hrun]
  · intro runs et dev cm task ctx n cid t e u resp2 hn hrun hcm hstop2
    have hmk : mk_specialists runs "analyst" = some (runs "analyst") := by
      unfold mk_specialists
      rw [if_pos (by decide)]
    have hdisp : manager_dispatch (mk_specialists runs) et dev "call_analyst_agent"
        { task := some t } = .ok (.failWithAgent "analyst" e) := by
      unfold manager_dispatch
      rw [if_pos (by decide)]
      have hid : extract_agent_id "call_analyst_agent" = "analyst" := by decide
      rw [hid]
      unfold call_specialist_agent
      simp only [hmk, hrun]
    have hhandle : manager_handle_tool_use (mk_specialists runs) et dev
        ⟨[.tool_use cid "call_analyst_agent" { task := some t }], "tool_use", u⟩
        = .ok [⟨cid, serialize_dispatch (.failWithAgent "analyst" e)⟩] := by
      unfold manager_handle_tool_use
      simp only [manager_handle_blocks, hdisp]
    refine ⟨hhandle, ?_⟩
    obtain ⟨k, rfl⟩ : ∃ k, n = k + 2 := ⟨n - 2, by omega⟩
    unfold run run_except
    have h2 : k + 2 = (k + 1) + 1 := rfl
    rw [h2, run_loop, hcm]
    rw [if_pos rfl]
    simp only
    rw [if_neg (by decide), if_pos (by decide)]
    rw [hhandle]
    simp only
    rw [run_loop]
    rw [hcm]
    rw [if_neg (by simp)]
    simp only
    rw [if_pos hstop2]

/-- C3, witness: with every specialist raising "boom", a concrete
two-iteration Manager run surfaces the Analyst failure as tool output
and then succeeds on the second model response. -/
theorem c3_specialist_failure_recovered_witness :
    manager_handle_tool_use (mk_specialists runs_fail) et_g true resp_call_analyst
      = .ok [⟨"i1", serialize_dispatch (.failWithAgent "analyst" "boom")⟩]
    ∧ run cm_mgr (manager_handle_tool_use (mk_specialists runs_fail) et_g true)
          "manager" "coordinate" none 2
      = { success := true, agent_id := "manager", result := some "done", error := none
          iterations := some 2, usage := some ⟨2, 3⟩ } := by
  have h := c3_specialist_failure_recovered.2 runs_fail et_g true cm_mgr
    "coordinate" none 2 "i1" "analyze" "boom" ⟨1, 1⟩ resp_done
    (by decide) rfl (fun _ => rfl) rfl
  exact ⟨h.1, by rw [h.2]; rfl⟩

/-- C10: (a) every tool invocation whose name starts with `call_` and
ends with `_agent` is handled by the specialist dispatch — the result is
`call_specialist_agent` on the extracted identifier, independent of the
generic tool registry, so a generic tool registered under such a name is
unreachable from the Manager; (b) when the extracted identifier is not
one of the five registered specialists (and the required `task` argument
is present), the dispatch returns the failure dict whose error names the
unknown specialist and which carries no `agent_id` key
(`DispatchRet.failNoAgent`). -/
theorem c10_call_pattern_dispatch :
    (∀ (specialists : String → Option SpecRun)
        (et : String → ToolInput → Except String String) (dev : Bool)
        (name : String) (input : ToolInput),
        py_startswith name "call_" = true → py_endswith name "_agent" = true →
        manager_dispatch specialists et dev name input
          = call_specialist_agent specialists (extract_agent_id name)
              input.task input.context)
    ∧ (∀ (runs : String → SpecRun)
        (et : String → ToolInput → Except String String) (dev : Bool)
        (name : String) (input : ToolInput) (t : String),
        py_startswith name "call_" = true → py_endswith name "_agent" = true →
        input.task = some t →
        extract_agent_id name ∉ specialist_ids →
        manager_dispatch (mk_specialists runs) et dev name input
          = .ok (.failNoAgent ("Unknown specialist agent: " ++ extract_agent_id name))) := by
  have hpat : ∀ (specialists : String → Option SpecRun)
      (et : String → ToolInput → Except String String) (dev : Bool)
      (name : String) (input : ToolInput),
      py_startswith name "call_" = true → py_endswith name "_agent" = true →
      manager_dispatch specialists et dev name input
        = call_specialist_agent specialists (extract_agent_id name)
            input.task input.context := by
    intro specialists et dev name input h1 h2
    unfold manager_dispatch
    rw [if_pos (by rw [h1, h2]; rfl)]
  refine ⟨hpat, ?_⟩
  intro runs et dev name input t h1 h2 htask hmem
  rw [hpat (mk_specialists runs) et dev name input h1 h2, htask]
  unfold call_specialist_agent
  have : mk_specialists runs (extract_agent_id name) = none := by
    unfold mk_specialists
    rw [if_neg hmem]
  simp only [this]

/-- C10, witness: the name `call_wizard_agent` matches the pattern, is
dispatched as a specialist call (identically under two different
registries), and "wizard" is unknown, so the no-`agent_id` failure dict
names it. -/
theorem c10_call_pattern_dispatch_witness :
    manager_dispatch (mk_specialists runs_fail) et_g true "call_wizard_agent"
        { task := some "t" }
      = manager_dispatch (mk_specialists runs_fail) et_h true "call_wizard_agent"
        { task := some "t" }
    ∧ manager_dispatch (mk_specialists runs_fail) et_g true "call_wizard_agent"
        { task := some "t" }
      = .ok (.failNoAgent "Unknown specialist agent: wizard") := by
  have ha := c10_call_pattern_dispatch.1 (mk_specialists runs_fail) et_g true
    "call_wizard_agent" { task := some "t" } (by decide) (by decide)
  have hb := c10_call_pattern_dispatch.1 (mk_specialists runs_fail) et_h true
    "call_wizard_agent" { task := some "t" } (by decide) (by decide)
  have hc := c10_call_pattern_dispatch.2 runs_fail et_g true
    "call_wizard_agent" { task := some "t" } "t" (by decide) (by decide) rfl (by decide)
  refine ⟨?_, ?_⟩
  · rw [ha, hb]
  · rw [hc]
    rfl

end AITeam
